import Mathlib

/-!
Shallow embedding of the two browser controllers of the
`html-qrcode-generator` repository:

* the QR-code generator (`QRCodeGenerator` class, `src/README.md` embedded
  source): error-correction selection, input validation, generation pipeline,
  SVG rendering, error display with timed auto-clear, and the clear action;
* the QR-code scanner (`src/src/index.js`, `QRScanner` class): decode-result
  handling, crop-region arithmetic, button enablement, and the clear action.

External collaborators (the `qrcode-generator` encoder and the `jsQR`
decoder) are modelled as parameters: an encoder function that may fail, and a
decoder outcome (decoded code, nothing, or a thrown error message).  DOM
elements are modelled by the text / visibility / enabled state the code
reads and writes.  JavaScript floating-point coordinate arithmetic is
modelled over `ℚ` (the operations involved — subtraction, addition and one
division — are the structural content of the claims, not rounding).
-/

namespace QRApp

/-! ## Generator: error-correction selection

`QRCodeGenerator.getOptimalErrorCorrection(text)` returns one of the four
error-correction levels based on `text.length`; the caller passes the
UTF-8 byte array of the trimmed input, so the length is the byte length. -/

/-- The four QR error-correction levels, as the strings `"L" | "M" | "Q" | "H"`
returned by `getOptimalErrorCorrection`. -/
inductive ECLevel
  | L
  | M
  | Q
  | H
  deriving DecidableEq

/-- `getOptimalErrorCorrection` from the generator source:
`> 500 → "L"`, `> 200 → "M"`, `> 100 → "Q"`, otherwise `"H"`. -/
def getOptimalErrorCorrection (len : Nat) : ECLevel :=
  if len > 500 then ECLevel.L
  else if len > 200 then ECLevel.M
  else if len > 100 then ECLevel.Q
  else ECLevel.H

/-- Robustness rank of an error-correction level: `L` (7%) is the lowest
tier, `H` (30%) the highest.  Used only to state monotonicity. -/
def robustness : ECLevel → Nat
  | ECLevel.L => 0
  | ECLevel.M => 1
  | ECLevel.Q => 2
  | ECLevel.H => 3

/-- The level name string used in the info line (`"L"`, `"M"`, `"Q"`, `"H"`). -/
def ecName : ECLevel → String
  | ECLevel.L => "L"
  | ECLevel.M => "M"
  | ECLevel.Q => "Q"
  | ECLevel.H => "H"

/-! ## Generator: SVG rendering (`createQRCodeSVG`)

The encoder returns a matrix object exposing `getModuleCount()` and
`isDark(row, col)`.  `createQRCodeSVG` draws a fixed 200×200 SVG: a white
background rect plus, for each dark module, a black rect at
`(col·moduleSize, row·moduleSize)` of side `moduleSize = 200 / moduleCount`. -/

/-- The encoder's module matrix: `getModuleCount()` and `isDark(row, col)`. -/
structure QRMatrix where
  moduleCount : Nat
  isDark : Nat → Nat → Bool

/-- One positioned `<rect>` of the SVG (x, y, width, height attributes). -/
structure SVGRect where
  x : ℚ
  y : ℚ
  w : ℚ
  h : ℚ
  deriving DecidableEq

/-- The SVG produced by `createQRCodeSVG`: the `width`/`height`/`viewBox`
canvas size, the module size, and the list of black module rects (the white
full-canvas background rect is always present and carries no module
information, so it is not listed). -/
structure QRSvg where
  size : ℚ
  moduleSize : ℚ
  darkRects : List SVGRect
  deriving DecidableEq

/-- `createQRCodeSVG(qr)` from the generator source: `size = 200`,
`moduleSize = size / moduleCount`, and the double loop over
`row, col ∈ [0, moduleCount)` appending a black rect at
`(col*moduleSize, row*moduleSize)` exactly when `qr.isDark(row, col)`. -/
def createQRCodeSVG (qr : QRMatrix) : QRSvg :=
  let size : ℚ := 200
  let moduleSize : ℚ := size / qr.moduleCount
  { size := size
    moduleSize := moduleSize
    darkRects :=
      (List.range qr.moduleCount).flatMap fun row =>
        (List.range qr.moduleCount).filterMap fun col =>
          if qr.isDark row col then
            some ⟨col * moduleSize, row * moduleSize, moduleSize, moduleSize⟩
          else
            none }

/-! ## Generator: state and the generation pipeline

`QRCodeGenerator` owns a text input, a QR-code container (whose children are
the rendered SVG plus an info line), and an error container.  `maxLength` is
the constructor parameter (the host page passes 1000). -/

/-- A child of the QR-code container: the rendered SVG or the info `<div>`
appended by `showQRCodeInfo`. -/
inductive ContainerItem
  | svgElem (svg : QRSvg)
  | infoElem (text : String)
  deriving DecidableEq

/-- Visible state of the generator controller. -/
structure GenState where
  textInput : String
  maxLength : Nat
  container : List ContainerItem
  errorMsg : String
  deriving DecidableEq

/-- JavaScript's `String.prototype.trim()`: the string with leading and
trailing whitespace removed (whitespace per `Char.isWhitespace`; defined
over the character list so that it evaluates by kernel reduction). -/
def jsTrim (s : String) : String :=
  ⟨((s.data.dropWhile Char.isWhitespace).reverse.dropWhile
      Char.isWhitespace).reverse⟩

/-- `showError(message)` as it affects the visible state: sets the error
container's text.  (The 5-second auto-clear timer it also starts is modelled
separately by the timed `displayedError` model below.) -/
def showErrorText (g : GenState) (m : String) : GenState :=
  { g with errorMsg := m }

/-- The byte sequence `new TextEncoder().encode(text)` — UTF-8 bytes. -/
def utf8Bytes (t : String) : List Nat :=
  t.toUTF8.toList.map UInt8.toNat

/-- The info line built by `showQRCodeInfo`. -/
def qrInfoText (mc textLen : Nat) (ec : ECLevel) : String :=
  "QR Code: " ++ toString mc ++ "x" ++ toString mc ++ " modules | " ++
    "Text: " ++ toString textLen ++ " chars | " ++
    "Error correction: " ++ ecName ec

/-- Result of one `generateQRCode()` call: the new visible state, plus
whether the external encoder was invoked at all. -/
structure GenResult where
  state : GenState
  encoderCalled : Bool
  deriving DecidableEq

/-- `generateQRCode()` from the generator source, with the external encoder
(`qrcode(0, level)`, `addData`, `make`, consumed through `createQRCodeSVG`)
abstracted as a function `enc` from the UTF-8 bytes and chosen level to
either a module matrix or a thrown error.  Steps, in source order:
trim the input; reject empty input (`"Please enter some text first!"`);
reject over-length input (`"Text is too long! …"`); clear the container and
the error text; call the encoder at the level chosen from the byte length;
on success append the SVG and the info line; on a thrown error show the
generic error message (the container stays cleared). -/
def generateQRCode (enc : List Nat → ECLevel → Except String QRMatrix)
    (g : GenState) : GenResult :=
  let text := jsTrim g.textInput
  if text = "" then
    ⟨showErrorText g "Please enter some text first!", false⟩
  else if text.length > g.maxLength then
    ⟨showErrorText g
      ("Text is too long! Maximum " ++ toString g.maxLength ++
        " characters allowed."), false⟩
  else
    let bytes := utf8Bytes text
    let g1 : GenState := { g with container := [], errorMsg := "" }
    let ec := getOptimalErrorCorrection bytes.length
    match enc bytes ec with
    | Except.ok qr =>
        ⟨{ g1 with
            container :=
              [ContainerItem.svgElem (createQRCodeSVG qr),
               ContainerItem.infoElem (qrInfoText qr.moduleCount text.length ec)] },
          true⟩
    | Except.error _ =>
        ⟨showErrorText g1
          "Error generating QR code. The text might be too long or contain unsupported characters.",
          true⟩

/-- `clearAll()` from the generator source: empties the input, the QR-code
container and the error text (`maxLength` is configuration, not visible
state, and is untouched). -/
def clearAll (g : GenState) : GenState :=
  { g with textInput := "", container := [], errorMsg := "" }

/-! ## Generator: timed error display (`showError` and its timer)

`showError(message)` sets the error container's text and calls
`setTimeout(() => this.errorContainer.textContent = "", 5000)`.  The timer
is never cancelled: every call schedules an unconditional clear 5000 ms
later.  We model a run as a list of `showError` calls at given times; the
event timeline is those calls plus, for each, a clear event 5000 ms after
it, replayed in time order. -/

/-- An event affecting the error container: a `showError(m)` call or the
firing of one of the scheduled `setTimeout` clears. -/
inductive ErrEvent
  | showMsg (m : String)
  | timerClear
  deriving DecidableEq

/-- Effect of one event on the error container's text: `showError` replaces
it with the message; a timer firing unconditionally sets it to `""`. -/
def errStep (_text : String) (e : ErrEvent) : String :=
  match e with
  | ErrEvent.showMsg m => m
  | ErrEvent.timerClear => ""

/-- The events generated by a list of `showError` calls `(time, message)`:
each call is a show event at its time plus a clear event 5000 ms later. -/
def errTimeline (calls : List (Nat × String)) : List (Nat × ErrEvent) :=
  calls.map (fun c => (c.1, ErrEvent.showMsg c.2)) ++
    calls.map (fun c => (c.1 + 5000, ErrEvent.timerClear))

/-- Insert an event into a time-sorted event list (stable: later-listed
events with equal times go after earlier ones already present). -/
def insertByTime (x : Nat × ErrEvent) :
    List (Nat × ErrEvent) → List (Nat × ErrEvent)
  | [] => [x]
  | y :: ys => if x.1 < y.1 then x :: y :: ys else y :: insertByTime x ys

/-- Sort an event list by time (insertion sort). -/
def sortByTime (l : List (Nat × ErrEvent)) : List (Nat × ErrEvent) :=
  l.foldr insertByTime []

/-- The error container's text at time `t`, given the `showError` calls of
the run: replay, in time order, every event that has happened by `t`,
starting from the empty initial text. -/
def displayedError (calls : List (Nat × String)) (t : Nat) : String :=
  ((sortByTime (errTimeline calls)).filter (fun e => e.1 ≤ t)).foldl
    (fun text e => errStep text e.2) ""

/-! ## Scanner: state and operations (`QRScanner`, `src/src/index.js`)

The scanner owns a result textarea, a preview image inside a preview area
(visibility toggled through the `hidden` class), a file input, and
copy/clear buttons.  `preview.src` is modelled by the crop rectangle last
drawn into it (`none` when it has been reset to `""`). -/

/-- A corner point reported by the decoder (floating-point pixel
coordinates, modelled over `ℚ`). -/
structure Point where
  x : ℚ
  y : ℚ
  deriving DecidableEq

/-- The decoder's `location` object; `displayQRCodeArea` reads only
`topLeftCorner` and `bottomRightCorner`. -/
structure QRLocation where
  topLeftCorner : Point
  topRightCorner : Point
  bottomLeftCorner : Point
  bottomRightCorner : Point
  deriving DecidableEq

/-- A successful decode: `code.data` and `code.location`. -/
structure DecodedQR where
  data : String
  location : QRLocation
  deriving DecidableEq

/-- The source rectangle cut out of the original image in
`displayQRCodeArea` (`sx, sy` origin, `sw × sh` extent); `sw`/`sh` are also
used verbatim as the crop canvas's width/height and the drawing extent. -/
structure CropRect where
  sx : ℚ
  sy : ℚ
  sw : ℚ
  sh : ℚ
  deriving DecidableEq

/-- The fixed `padding = 10` of `displayQRCodeArea`. -/
def cropPadding : ℚ := 10

/-- The crop arithmetic of `displayQRCodeArea`:
`qrWidth  = bottomRightCorner.x - topLeftCorner.x + padding * 2`,
`qrHeight = bottomRightCorner.y - topLeftCorner.y + padding * 2`, drawn
from source origin `(topLeftCorner.x - padding, topLeftCorner.y - padding)`.
No coordinate is clamped to the source image's bounds, and no check that
the extent is positive is made. -/
def computeCrop (loc : QRLocation) : CropRect :=
  { sx := loc.topLeftCorner.x - cropPadding
    sy := loc.topLeftCorner.y - cropPadding
    sw := loc.bottomRightCorner.x - loc.topLeftCorner.x + cropPadding * 2
    sh := loc.bottomRightCorner.y - loc.topLeftCorner.y + cropPadding * 2 }

/-- Visible state of the scanner controller. -/
structure ScanState where
  resultText : String
  previewHidden : Bool
  previewCrop : Option CropRect
  fileInputValue : String
  copyBtnDisabled : Bool
  clearBtnDisabled : Bool
  deriving DecidableEq

/-- `toggleButtons()`: both buttons are enabled exactly when
`resultText.value.trim().length > 0`. -/
def toggleButtons (s : ScanState) : ScanState :=
  let hasText := (jsTrim s.resultText).length > 0
  { s with copyBtnDisabled := !hasText, clearBtnDisabled := !hasText }

/-- `displayQRCodeArea(location, originalImg)`: draws the padded crop into a
fresh canvas, points the preview at it, and reveals the preview area. -/
def displayQRCodeArea (loc : QRLocation) (s : ScanState) : ScanState :=
  { s with previewCrop := some (computeCrop loc), previewHidden := false }

/-- `scanQRCode(img)` from the decoder call onward, with the external
decoder (`jsQR(imageData, …)`) abstracted as its outcome: a decoded code,
`null`, or a thrown error.  Found: set the result text to `code.data`, show
the cropped area, and refresh the buttons.  Not found: set the result text
to the literal `"No QR code found"` and hide the preview area (buttons are
not refreshed).  Thrown: set the result text to
`"Error scanning QR code: " + error.message` and hide the preview area
(buttons are not refreshed). -/
def scanQRCode (outcome : Except String (Option DecodedQR))
    (s : ScanState) : ScanState :=
  match outcome with
  | Except.ok (some code) =>
      toggleButtons (displayQRCodeArea code.location
        { s with resultText := code.data })
  | Except.ok none =>
      { s with resultText := "No QR code found", previewHidden := true }
  | Except.error msg =>
      { s with resultText := "Error scanning QR code: " ++ msg,
               previewHidden := true }

/-- `clearResults()`: empties the result text, hides the preview area,
resets the preview source and the file input, then refreshes the buttons. -/
def clearResults (s : ScanState) : ScanState :=
  toggleButtons
    { s with resultText := "", previewHidden := true, previewCrop := none,
             fileInputValue := "" }

/-! ## Helper lemmas -/

/-- A string has length `0` exactly when it is the empty string (the JS
emptiness test `!text` on a string). -/
theorem string_length_eq_zero_iff (s : String) : s.length = 0 ↔ s = "" := by
  constructor
  · intro h
    rw [String.ext_iff]
    cases s with
    | mk l => simp_all
  · intro h
    subst h
    rfl

/-! ## Claims -/

/-- **C1.** `getOptimalErrorCorrection` is a pure step function of the
encoded byte length: `> 500 → L` (lowest tier), `> 200 → M`, `> 100 → Q`,
otherwise `H` (highest tier); its robustness is monotone non-increasing in
the length, with boundaries exactly at 100, 200 and 500; in particular
length 50 gives `H`, 150 gives `Q`, 300 gives `M`, 600 gives `L`. -/
theorem errorCorrection_step_monotone :
    (∀ n, 500 < n → getOptimalErrorCorrection n = ECLevel.L) ∧
    (∀ n, 200 < n → n ≤ 500 → getOptimalErrorCorrection n = ECLevel.M) ∧
    (∀ n, 100 < n → n ≤ 200 → getOptimalErrorCorrection n = ECLevel.Q) ∧
    (∀ n, n ≤ 100 → getOptimalErrorCorrection n = ECLevel.H) ∧
    (∀ m n, m ≤ n →
      robustness (getOptimalErrorCorrection n) ≤
        robustness (getOptimalErrorCorrection m)) ∧
    getOptimalErrorCorrection 50 = ECLevel.H ∧
    getOptimalErrorCorrection 150 = ECLevel.Q ∧
    getOptimalErrorCorrection 300 = ECLevel.M ∧
    getOptimalErrorCorrection 600 = ECLevel.L := by
  refine ⟨?_, ?_, ?_, ?_, ?_, by decide, by decide, by decide, by decide⟩
  · intro n hn
    unfold getOptimalErrorCorrection
    split_ifs <;> rfl
  · intro n h1 h2
    unfold getOptimalErrorCorrection
    split_ifs <;> first | rfl | omega
  · intro n h1 h2
    unfold getOptimalErrorCorrection
    split_ifs <;> first | rfl | omega
  · intro n h1
    unfold getOptimalErrorCorrection
    split_ifs <;> first | rfl | omega
  · intro m n hmn
    unfold getOptimalErrorCorrection
    split_ifs <;> simp [robustness] <;> try omega

/-- Witness for C1: the theorem applied at the concrete lengths 150 and
300 — the level chosen for the longer input is at most as robust. -/
theorem errorCorrection_step_monotone_witness :
    robustness (getOptimalErrorCorrection 300) ≤
      robustness (getOptimalErrorCorrection 150) :=
  errorCorrection_step_monotone.2.2.2.2.1 150 300 (by decide)

/-- **C2.** `generateQRCode` validates before encoding: the external
encoder is invoked exactly when the validated text (the trimmed input) has
length greater than 0 and at most `maxLength`; empty text is rejected with
`"Please enter some text first!"` and over-length text with the
`"Text is too long! …"` message, in both cases with the encoder never
called. -/
theorem generate_validates_before_encoding
    (enc : List Nat → ECLevel → Except String QRMatrix) (g : GenState) :
    ((generateQRCode enc g).encoderCalled = true ↔
      0 < (jsTrim g.textInput).length ∧ (jsTrim g.textInput).length ≤ g.maxLength) ∧
    ((jsTrim g.textInput).length = 0 →
      (generateQRCode enc g).encoderCalled = false ∧
      (generateQRCode enc g).state.errorMsg =
        "Please enter some text first!") ∧
    (g.maxLength < (jsTrim g.textInput).length →
      (generateQRCode enc g).encoderCalled = false ∧
      (generateQRCode enc g).state.errorMsg =
        "Text is too long! Maximum " ++ toString g.maxLength ++
          " characters allowed.") := by
  by_cases h0 : (jsTrim g.textInput) = ""
  · have hlen : (jsTrim g.textInput).length = 0 :=
      (string_length_eq_zero_iff _).mpr h0
    refine ⟨?_, fun _ => ?_, fun hlong => ?_⟩
    · simp [generateQRCode, h0, showErrorText, hlen]
    · simp [generateQRCode, h0, showErrorText]
    · omega
  · have hlen : 0 < (jsTrim g.textInput).length := by
      rcases Nat.eq_zero_or_pos (jsTrim g.textInput).length with h | h
      · exact absurd ((string_length_eq_zero_iff _).mp h) h0
      · exact h
    by_cases h1 : (jsTrim g.textInput).length > g.maxLength
    · refine ⟨?_, fun hz => ?_, fun _ => ?_⟩
      · simp [generateQRCode, h0, h1, showErrorText]
      · omega
      · simp [generateQRCode, h0, h1, showErrorText]
    · refine ⟨?_, fun hz => ?_, fun hlong => ?_⟩
      · cases henc : enc (utf8Bytes (jsTrim g.textInput))
          (getOptimalErrorCorrection (utf8Bytes (jsTrim g.textInput)).length) with
        | ok qr =>
            simp [generateQRCode, h0, h1, henc, hlen]
            omega
        | error e =>
            simp [generateQRCode, h0, h1, henc, hlen]
            omega
      · omega
      · omega

/-- Witness for C2: at the concrete state with raw input `"  "`
(whitespace-only, so the validated text is empty) and maximum 1000, with a
concrete encoder, generation rejects with the empty-input message and never
calls the encoder; and the acceptance equivalence holds at that input. -/
theorem generate_validates_before_encoding_witness :
    ((generateQRCode (fun _ _ => Except.error "boom")
        ⟨"  ", 1000, [], ""⟩).encoderCalled = false ∧
      (generateQRCode (fun _ _ => Except.error "boom")
        ⟨"  ", 1000, [], ""⟩).state.errorMsg =
        "Please enter some text first!") ∧
    ((generateQRCode (fun _ _ => Except.error "boom")
        ⟨"  ", 1000, [], ""⟩).encoderCalled = true ↔
      0 < (jsTrim "  ").length ∧
        (jsTrim "  ").length ≤ 1000) :=
  ⟨(generate_validates_before_encoding (fun _ _ => Except.error "boom")
      ⟨"  ", 1000, [], ""⟩).2.1 (by decide),
   (generate_validates_before_encoding (fun _ _ => Except.error "boom")
      ⟨"  ", 1000, [], ""⟩).1⟩

/-- **C6.** If the external encoder throws during generation (on input that
passed validation, i.e. the encoder was actually invoked), the generator
shows the user-facing generation-error message and leaves no symbol
rendered: the container, cleared of the previously rendered symbol before
the encode attempt, stays empty. -/
theorem encoder_failure_leaves_no_symbol
    (enc : List Nat → ECLevel → Except String QRMatrix) (g : GenState)
    (e : String)
    (hcalled : (generateQRCode enc g).encoderCalled = true)
    (henc : enc (utf8Bytes (jsTrim g.textInput))
      (getOptimalErrorCorrection (utf8Bytes (jsTrim g.textInput)).length) =
        Except.error e) :
    (generateQRCode enc g).state.container = [] ∧
    (generateQRCode enc g).state.errorMsg =
      "Error generating QR code. The text might be too long or contain unsupported characters." := by
  by_cases h0 : (jsTrim g.textInput) = ""
  · simp [generateQRCode, h0, showErrorText] at hcalled
  · by_cases h1 : (jsTrim g.textInput).length > g.maxLength
    · simp [generateQRCode, h0, h1, showErrorText] at hcalled
    · simp [generateQRCode, h0, h1, henc, showErrorText]

/-- Witness for C6: a generator state holding a previously rendered symbol
and the input `"hi"`, with an encoder that always throws — after the call
the container is empty and the generic error message is shown. -/
theorem encoder_failure_leaves_no_symbol_witness :
    (generateQRCode (fun _ _ => Except.error "boom")
      ⟨"hi", 1000, [ContainerItem.infoElem "old"], ""⟩).state.container =
        [] ∧
    (generateQRCode (fun _ _ => Except.error "boom")
      ⟨"hi", 1000, [ContainerItem.infoElem "old"], ""⟩).state.errorMsg =
      "Error generating QR code. The text might be too long or contain unsupported characters." :=
  encoder_failure_leaves_no_symbol (fun _ _ => Except.error "boom")
    ⟨"hi", 1000, [ContainerItem.infoElem "old"], ""⟩ "boom" (by decide) rfl

/-- **C5.** The rendered SVG is a fixed 200×200 canvas with
`moduleSize = 200 / moduleCount`, and for every `(row, col)` of the module
grid a dark rect sits at `(col·moduleSize, row·moduleSize)` exactly when
`isDark(row, col)` is true; conversely every dark rect of the rendering
comes from such a dark module — no dark shape exists for a cell where
`isDark` is false. -/
theorem svg_rendering_correct (qr : QRMatrix) (hmc : 0 < qr.moduleCount) :
    (createQRCodeSVG qr).size = 200 ∧
    (createQRCodeSVG qr).moduleSize = 200 / (qr.moduleCount : ℚ) ∧
    (∀ row col, row < qr.moduleCount → col < qr.moduleCount →
      ((⟨col * (200 / (qr.moduleCount : ℚ)), row * (200 / (qr.moduleCount : ℚ)),
          200 / (qr.moduleCount : ℚ), 200 / (qr.moduleCount : ℚ)⟩ : SVGRect) ∈
            (createQRCodeSVG qr).darkRects ↔ qr.isDark row col = true)) ∧
    (∀ r ∈ (createQRCodeSVG qr).darkRects, ∃ row col,
      row < qr.moduleCount ∧ col < qr.moduleCount ∧ qr.isDark row col = true ∧
      r = ⟨col * (200 / (qr.moduleCount : ℚ)), row * (200 / (qr.moduleCount : ℚ)),
            200 / (qr.moduleCount : ℚ), 200 / (qr.moduleCount : ℚ)⟩) := by
  have hne : ((qr.moduleCount : ℚ)) ≠ 0 :=
    Nat.cast_ne_zero.mpr (Nat.pos_iff_ne_zero.mp hmc)
  have hms : (200 / (qr.moduleCount : ℚ)) ≠ 0 := div_ne_zero (by norm_num) hne
  refine ⟨rfl, rfl, ?_, ?_⟩
  · intro row col hrow hcol
    constructor
    · intro hmem
      simp only [createQRCodeSVG, List.mem_flatMap, List.mem_filterMap,
        List.mem_range] at hmem
      obtain ⟨row', hrow', col', hcol', hif⟩ := hmem
      by_cases hd : qr.isDark row' col'
      · rw [if_pos hd] at hif
        rw [Option.some_inj, SVGRect.mk.injEq] at hif
        obtain ⟨hx, hy, -, -⟩ := hif
        have hcol'' : col' = col := by
          have := mul_right_cancel₀ hms hx
          exact_mod_cast this
        have hrow'' : row' = row := by
          have := mul_right_cancel₀ hms hy
          exact_mod_cast this
        rw [hcol'', hrow''] at hd
        exact hd
      · rw [if_neg hd] at hif
        exact absurd hif (by simp)
    · intro hd
      simp only [createQRCodeSVG, List.mem_flatMap, List.mem_filterMap,
        List.mem_range]
      exact ⟨row, hrow, col, hcol, by rw [if_pos hd]⟩
  · intro r hr
    simp only [createQRCodeSVG, List.mem_flatMap, List.mem_filterMap,
      List.mem_range] at hr
    obtain ⟨row', hrow', col', hcol', hif⟩ := hr
    by_cases hd : qr.isDark row' col'
    · rw [if_pos hd] at hif
      rw [Option.some_inj] at hif
      exact ⟨row', col', hrow', hcol', hd, hif.symm⟩
    · rw [if_neg hd] at hif
      exact absurd hif (by simp)

/-- Witness for C5: the theorem applied at a concrete 2×2 checkerboard
matrix, at cell `(0, 1)` — a light cell, so no dark rect sits at its
position. -/
theorem svg_rendering_correct_witness :
    ((⟨((1 : Nat) : ℚ) * (200 / ((2 : Nat) : ℚ)),
        ((0 : Nat) : ℚ) * (200 / ((2 : Nat) : ℚ)),
        200 / ((2 : Nat) : ℚ), 200 / ((2 : Nat) : ℚ)⟩ : SVGRect) ∈
      (createQRCodeSVG
        ⟨2, fun r c => decide ((r + c) % 2 = 0)⟩).darkRects) ↔
    (⟨2, fun r c => decide ((r + c) % 2 = 0)⟩ : QRMatrix).isDark 0 1 = true :=
  (svg_rendering_correct ⟨2, fun r c => decide ((r + c) % 2 = 0)⟩
    (by decide)).2.2.1 0 1 (by decide) (by decide)

/-- Counterexample to C3 as stated: starting from the cleared scanner state
(result empty, buttons disabled — the state `clearResults` itself
produces), a failed decode (`jsQR` returning `null`) writes the
non-whitespace literal `"No QR code found"` into the result field but
leaves the copy button disabled, because `scanQRCode` does not call
`toggleButtons` on that path: enabled-iff-non-whitespace fails after this
operation. -/
theorem buttons_stale_after_failed_decode :
    0 < (jsTrim (scanQRCode (Except.ok none)
        (clearResults ⟨"x", false, none, "", false, false⟩)).resultText).length ∧
    (scanQRCode (Except.ok none)
        (clearResults ⟨"x", false, none, "", false, false⟩)).copyBtnDisabled =
      true := by
  constructor
  · decide
  · rfl

/-- **C3 (amended).** After a successful decode and after `clearResults`
the copy and clear buttons are enabled exactly when the result text,
trimmed of whitespace, is non-empty; but after a failed decode
(`"No QR code found"`) and after a decoder exception the buttons keep
whatever state they had before — `toggleButtons` is not invoked on those
two paths, so the enabled-iff-non-whitespace invariant can be violated
there. -/
theorem button_state_after_operations :
    (∀ s code,
      ((scanQRCode (Except.ok (some code)) s).copyBtnDisabled = false ↔
        0 < (jsTrim (scanQRCode (Except.ok (some code)) s).resultText).length) ∧
      ((scanQRCode (Except.ok (some code)) s).clearBtnDisabled = false ↔
        0 < (jsTrim (scanQRCode (Except.ok (some code)) s).resultText).length)) ∧
    (∀ s, (scanQRCode (Except.ok none) s).copyBtnDisabled = s.copyBtnDisabled ∧
      (scanQRCode (Except.ok none) s).clearBtnDisabled = s.clearBtnDisabled) ∧
    (∀ s m,
      (scanQRCode (Except.error m) s).copyBtnDisabled = s.copyBtnDisabled ∧
      (scanQRCode (Except.error m) s).clearBtnDisabled = s.clearBtnDisabled) ∧
    (∀ s, (clearResults s).resultText = "" ∧
      (clearResults s).copyBtnDisabled = true ∧
      (clearResults s).clearBtnDisabled = true) := by
  refine ⟨?_, fun s => ⟨rfl, rfl⟩, fun s m => ⟨rfl, rfl⟩,
    fun s => ⟨rfl, rfl, rfl⟩⟩
  intro s code
  constructor
  · simp [scanQRCode, toggleButtons, displayQRCodeArea]
  · simp [scanQRCode, toggleButtons, displayQRCodeArea]

/-- **C4.** When the decoder returns no result the result field is set to
exactly the literal `"No QR code found"` and the preview area is hidden;
when the decoder throws, the result field shows the thrown error's message
text (as the suffix of `"Error scanning QR code: " + message`) and the
preview area is hidden. -/
theorem decode_failure_display (s : ScanState) (m : String) :
    ((scanQRCode (Except.ok none) s).resultText = "No QR code found" ∧
      (scanQRCode (Except.ok none) s).previewHidden = true) ∧
    ((scanQRCode (Except.error m) s).resultText =
        "Error scanning QR code: " ++ m ∧
      (∃ pre, (scanQRCode (Except.error m) s).resultText = pre ++ m) ∧
      (scanQRCode (Except.error m) s).previewHidden = true) :=
  ⟨⟨rfl, rfl⟩, rfl, ⟨"Error scanning QR code: ", rfl⟩, rfl⟩

/-- Counterexample to C7 as stated: `showError "A"` at time 0 ms and
`showError "B"` at time 3000 ms — at time 5000 ms, when A's timer fires,
B (shown later, own expiry 8000 ms) has been wiped: the error text is
empty, not `"B"`. -/
theorem later_message_wiped_by_earlier_expiry :
    displayedError [(0, "A"), (3000, "B")] 4999 = "B" ∧
    displayedError [(0, "A"), (3000, "B")] 5000 ≠ "B" ∧
    displayedError [(0, "A"), (3000, "B")] 5000 = "" := by
  refine ⟨rfl, ?_, rfl⟩
  decide

/-- **C7 (amended).** Every error message is auto-cleared 5000 ms after it
is shown, but the clear is unconditional — `showError` never cancels the
previous timer — so a message shown later IS wiped by the earlier message's
expiry when it is shown within 5 seconds of it: a single message shown at
time 0 is still displayed at 4999 and cleared at 5000; a second message
shown at 3000 is displayed at 4999 but already wiped at 5000 by the first
message's timer, 3000 ms before its own expiry. -/
theorem error_autoclear_unconditional (m1 m2 : String) :
    displayedError [(0, m1)] 4999 = m1 ∧
    displayedError [(0, m1)] 5000 = "" ∧
    displayedError [(0, m1), (3000, m2)] 4999 = m2 ∧
    displayedError [(0, m1), (3000, m2)] 5000 = "" := by
  refine ⟨?_, ?_, ?_, ?_⟩ <;>
    simp [displayedError, errTimeline, sortByTime, insertByTime, errStep]

/-- **C8.** The preview crop region is computed from the bounding
quadrilateral with fixed padding 10: origin
`(topLeftCorner.x − 10, topLeftCorner.y − 10)`, extent
`(bottomRightCorner − topLeftCorner) + 2·10` in each axis; and the
coordinates are not clamped to the source image's bounds — a
quadrilateral starting at `(5, 5)` yields a source-x of `−5`, outside
`[0, sourceWidth]` for every source image. -/
theorem crop_region_formula (loc : QRLocation) :
    (computeCrop loc).sx = loc.topLeftCorner.x - 10 ∧
    (computeCrop loc).sy = loc.topLeftCorner.y - 10 ∧
    (computeCrop loc).sw =
      loc.bottomRightCorner.x - loc.topLeftCorner.x + 2 * 10 ∧
    (computeCrop loc).sh =
      loc.bottomRightCorner.y - loc.topLeftCorner.y + 2 * 10 ∧
    (computeCrop ⟨⟨5, 5⟩, ⟨55, 5⟩, ⟨5, 55⟩, ⟨55, 55⟩⟩).sx < 0 := by
  refine ⟨rfl, rfl, ?_, ?_, ?_⟩
  · norm_num [computeCrop, cropPadding]
  · norm_num [computeCrop, cropPadding]
  · norm_num [computeCrop, cropPadding]

/-- **C9.** Both clear actions reset all visible state to its initial
empty/hidden form — generator: input text, rendered symbol and error
message empty; scanner: result text empty, preview hidden with its source
cleared, file picker reset, both buttons disabled — and both are
idempotent. -/
theorem clear_resets_idempotent (g : GenState) (s : ScanState) :
    (clearAll g).textInput = "" ∧ (clearAll g).container = [] ∧
    (clearAll g).errorMsg = "" ∧ clearAll (clearAll g) = clearAll g ∧
    (clearResults s).resultText = "" ∧
    (clearResults s).previewHidden = true ∧
    (clearResults s).previewCrop = none ∧
    (clearResults s).fileInputValue = "" ∧
    (clearResults s).copyBtnDisabled = true ∧
    (clearResults s).clearBtnDisabled = true ∧
    clearResults (clearResults s) = clearResults s :=
  ⟨rfl, rfl, rfl, rfl, rfl, rfl, rfl, rfl, rfl, rfl, rfl⟩

/-- A decoder-reported location of a rotated detection: its
`bottomRightCorner` (image coordinates `(0, 100)`) lies to the *left* of
its `topLeftCorner` (`(100, 0)`). -/
def rotatedLocation : QRLocation :=
  ⟨⟨100, 0⟩, ⟨100, 100⟩, ⟨0, 0⟩, ⟨0, 100⟩⟩

/-- **C10.** The crop computation assumes `bottomRightCorner` lies below
and to the right of `topLeftCorner`: at `rotatedLocation`
(`bottomRightCorner.x < topLeftCorner.x`) the computed crop width is
negative (−80), and no guard checks positivity before use — `scanQRCode`
still points the preview at a canvas built with that width/extent and
reveals it. -/
theorem negative_crop_unguarded :
    (computeCrop rotatedLocation).sw = -80 ∧
    (computeCrop rotatedLocation).sw < 0 ∧
    (scanQRCode (Except.ok (some ⟨"payload", rotatedLocation⟩))
        (clearResults ⟨"", true, none, "", true, true⟩)).previewCrop =
      some (computeCrop rotatedLocation) ∧
    (scanQRCode (Except.ok (some ⟨"payload", rotatedLocation⟩))
        (clearResults ⟨"", true, none, "", true, true⟩)).previewHidden =
      false := by
  refine ⟨?_, ?_, rfl, rfl⟩
  · norm_num [computeCrop, cropPadding, rotatedLocation]
  · norm_num [computeCrop, cropPadding, rotatedLocation]

end QRApp
